import Mathlib

/-!
Shallow embedding of the key-reference parsing/display code of
`descriptor-wallet` (src/hd/src/xpubref.rs) and the PSBT version type
(src/psbt/src/lib.rs), with theorems settling the frozen claims about them.

Rust strings are modelled as `List Char` (all inputs relevant to the claims
are ASCII, so Rust byte indices coincide with character positions) and byte
strings as lists of naturals bounded by 256.
-/

/-- A byte string of length `n`: the embedding of Rust `[u8; n]`. -/
abbrev Bytes (n : Nat) := { l : List Nat // l.length = n ∧ ∀ b ∈ l, b < 256 }

/-- `bitcoin::bip32::Fingerprint`: 4 raw bytes. -/
abbrev Fingerprint := Bytes 4

/-- `bitcoin::XKeyIdentifier`: a 20-byte hash160 value. -/
abbrev XKeyIdentifier := Bytes 20

/-- Modelled from the spec: the spec's data model says the FullKey variant
holds "extended public key bytes" (the `bitcoin` crate's `Xpub`, whose
implementation is not under src/); we represent it by its 78-byte BIP32
serialization. -/
abbrev Xpub := Bytes 78

/-! ### Hex encoding/decoding (the `bitcoin` crate's byte-array Display/FromStr) -/

/-- Lowercase hex digit for a value below 16. -/
def natToHexDigit (n : Nat) : Char :=
  if n < 10 then Char.ofNat (48 + n) else Char.ofNat (87 + n)

/-- Two lowercase hex digits of one byte. -/
def byteToHexChars (b : Nat) : List Char :=
  [natToHexDigit (b / 16), natToHexDigit (b % 16)]

/-- Lowercase hex of a byte string, as the `Display` of `Fingerprint` and
`XKeyIdentifier` (hash160 values print forward, not reversed). -/
def bytesToHex (bs : List Nat) : List Char :=
  (bs.map byteToHexChars).flatten

/-- Value of one hex digit; accepts both cases, as the hex parser of the
`bitcoin` crate does. -/
def hexDigitToNat (c : Char) : Option Nat :=
  if 48 ≤ c.toNat ∧ c.toNat ≤ 57 then some (c.toNat - 48)
  else if 97 ≤ c.toNat ∧ c.toNat ≤ 102 then some (c.toNat - 87)
  else if 65 ≤ c.toNat ∧ c.toNat ≤ 70 then some (c.toNat - 55)
  else none

/-- Hex decoding of an even-length digit string into bytes. -/
def hexToBytes : List Char → Option (List Nat)
  | [] => some []
  | [_] => none
  | c1 :: c2 :: rest =>
    match hexDigitToNat c1, hexDigitToNat c2, hexToBytes rest with
    | some hi, some lo, some tl => some ((16 * hi + lo) :: tl)
    | _, _, _ => none

/-- Fixed-size hex parsing, as the byte-array `FromStr` of the `bitcoin`
crate: exactly `2*n` hex digits, otherwise failure. -/
def bytesFromHex (n : Nat) (s : List Char) : Option (Bytes n) :=
  if s.length = 2 * n then
    match hexToBytes s with
    | some bs =>
      if h : bs.length = n ∧ ∀ b ∈ bs, b < 256 then some ⟨bs, h⟩ else none
    | none => none
  else none

/-- `Fingerprint::from_str`: 8 hex digits. -/
def Fingerprint.from_str (s : List Char) : Option Fingerprint :=
  bytesFromHex 4 s

/-- `XKeyIdentifier::from_str`: 40 hex digits. -/
def XKeyIdentifier.from_str (s : List Char) : Option XKeyIdentifier :=
  bytesFromHex 20 s

/-- `Fingerprint::try_from(&[u8])`: succeeds exactly on 4-byte slices. -/
def Fingerprint.try_from (l : List Nat) : Option Fingerprint :=
  if h : l.length = 4 ∧ ∀ b ∈ l, b < 256 then some ⟨l, h⟩ else none

/-! ### The Xpub textual form and derived hashes (dependency code) -/

/-- The leading non-hex letters of the textual form of an `Xpub`. -/
def xpubTag : List Char := ['x', 'p', 'u', 'b']

/-- Modelled from the spec: the "full extended-key text" form of an `Xpub`
(the `bitcoin` crate's base58check `Display`, not under src/). The model
keeps the properties the claims rest on: an injective textual encoding of
the key bytes that is never valid 8- or 40-digit hex (it starts with the
non-hex letter x and is far longer than 40 characters). -/
def Xpub.toText (x : Xpub) : List Char :=
  xpubTag ++ bytesToHex x.val

/-- `bitcoin::bip32::Error`, restricted to the constructors the claims can
observe: the `InvalidDerivationPathFormat` value produced on line 103 of
xpubref.rs, and the base58-decoding class of errors that `Xpub::from_str`
returns on malformed text (it never returns `InvalidDerivationPathFormat`). -/
inductive Bip32Error
  | invalidDerivationPathFormat
  | base58
  deriving DecidableEq

instance instDecEqExcept {ε α : Type} [DecidableEq ε] [DecidableEq α] :
    DecidableEq (Except ε α)
  | Except.error a, Except.error b => decidable_of_iff (a = b) (by simp)
  | Except.error _, Except.ok _ => isFalse (fun h => Except.noConfusion h)
  | Except.ok _, Except.error _ => isFalse (fun h => Except.noConfusion h)
  | Except.ok a, Except.ok b => decidable_of_iff (a = b) (by simp)

/-- Modelled from the spec: `Xpub::from_str` (dependency code), the exact
inverse of `Xpub.toText`; on text that is not a well-formed extended key it
fails with a base58 error, as the `bitcoin` crate does. -/
def Xpub.from_str (s : List Char) : Except Bip32Error Xpub :=
  if s.take 4 = xpubTag then
    match bytesFromHex 78 (s.drop 4) with
    | some x => Except.ok x
    | none => Except.error Bip32Error.base58
  else Except.error Bip32Error.base58

/-- Modelled from the spec: the hash160-based key identifier of an extended
key (`Xpub::identifier` in the dependency). The claims depend only on it
being a total function into 20-byte values, never on the digest itself, so a
truncation of the key bytes stands in for the RIPEMD160/SHA256 digest. -/
def Xpub.identifier (x : Xpub) : XKeyIdentifier :=
  ⟨x.val.take 20, by
    obtain ⟨h1, h2⟩ := x.property
    refine ⟨?_, fun b hb => h2 b (List.take_subset 20 x.val hb)⟩
    rw [List.length_take, h1]; omega⟩

/-- `Xpub::fingerprint` in the dependency: the first 4 bytes of the
identifier. -/
def Xpub.fingerprint (x : Xpub) : Fingerprint :=
  ⟨(Xpub.identifier x).val.take 4, by
    obtain ⟨h1, h2⟩ := (Xpub.identifier x).property
    refine ⟨?_, fun b hb => h2 b (List.take_subset 4 _ hb)⟩
    rw [List.length_take, h1]; omega⟩

/-! ### XpubRef (src/hd/src/xpubref.rs) -/

/-- `XpubRef`: a reference to the used extended public key at some level of
a derivation path. -/
inductive XpubRef
  | Unknown
  | Fingerprint (fp : Fingerprint)
  | XKeyIdentifier (xid : XKeyIdentifier)
  | Xpub (xpub : Xpub)
  deriving DecidableEq

/-- The `#[default]` attribute on the `Unknown` variant. -/
def XpubRef.default : XpubRef := XpubRef.Unknown

/-- The derived `Display` (non-alternate form): `#[display("[{0}]")]`, with
`#[display("")]` on `Unknown`. -/
def XpubRef.display : XpubRef → List Char
  | XpubRef.Unknown => []
  | XpubRef.Fingerprint fp => '[' :: (bytesToHex fp.val ++ [']'])
  | XpubRef.XKeyIdentifier xid => '[' :: (bytesToHex xid.val ++ [']'])
  | XpubRef.Xpub x => '[' :: (Xpub.toText x ++ [']'])

/-- Alias used inside the `XpubRef` namespace, where the bare name
`Fingerprint` resolves to the constructor. -/
abbrev FingerprintBytes := Fingerprint

/-- Alias used inside the `XpubRef` namespace, where the bare name
`XKeyIdentifier` resolves to the constructor. -/
abbrev XKeyIdentifierBytes := XKeyIdentifier

/-- Alias used inside the `XpubRef` namespace, where the bare name
`Xpub` resolves to the constructor. -/
abbrev XpubBytes := Xpub

/-- `XpubRef::is_some`: `self != &XpubRef::Unknown`. -/
def XpubRef.is_some (r : XpubRef) : Bool :=
  decide (r ≠ XpubRef.Unknown)

/-- `XpubRef::fingerprint`. -/
def XpubRef.fingerprint : XpubRef → Option FingerprintBytes
  | XpubRef.Unknown => none
  | XpubRef.Fingerprint fp => some fp
  | XpubRef.XKeyIdentifier xid => Fingerprint.try_from (xid.val.take 4)
  | XpubRef.Xpub x => some (Xpub.fingerprint x)

/-- `XpubRef::identifier`. -/
def XpubRef.identifier : XpubRef → Option XKeyIdentifierBytes
  | XpubRef.Unknown => none
  | XpubRef.Fingerprint _ => none
  | XpubRef.XKeyIdentifier xid => some xid
  | XpubRef.Xpub x => some (Xpub.identifier x)

/-- `XpubRef::xpubkey`. -/
def XpubRef.xpubkey : XpubRef → Option XpubBytes
  | XpubRef.Unknown => none
  | XpubRef.Fingerprint _ => none
  | XpubRef.XKeyIdentifier _ => none
  | XpubRef.Xpub x => some x

/-- The combinator chain on lines 100-104 of xpubref.rs:
`Fingerprint::from_str(s).map(..).or_else(|_| XKeyIdentifier::from_str(s).map(..))
.map_err(|_| InvalidDerivationPathFormat).or_else(|_| Xpub::from_str(s).map(..))`.
The first `match` is the fingerprint/identifier stage after `map_err`; the
second is the final `or_else`, which discards that stage's error. -/
def XpubRef.parseBody (s : List Char) : Except Bip32Error XpubRef :=
  let stage1 : Except Bip32Error XpubRef :=
    match Fingerprint.from_str s with
    | some fp => Except.ok (XpubRef.Fingerprint fp)
    | none =>
      match XKeyIdentifier.from_str s with
      | some xid => Except.ok (XpubRef.XKeyIdentifier xid)
      | none => Except.error Bip32Error.invalidDerivationPathFormat
  match stage1 with
  | Except.ok r => Except.ok r
  | Except.error _ => (Xpub.from_str s).map XpubRef.Xpub

/-- `XpubRef::from_str` (lines 91-105). `none` models a Rust panic: the
byte slices `&s[2..s.len()-1]` and `&s[1..s.len()-1]` are out of bounds
when the start index exceeds the end index. -/
def XpubRef.from_str (s : List Char) : Option (Except Bip32Error XpubRef) :=
  if s = [] then some (Except.ok XpubRef.Unknown)
  else if s.take 2 = ['=', '['] then
    if 2 ≤ s.length - 1 then some (XpubRef.parseBody ((s.drop 2).dropLast))
    else none
  else if s.take 1 = ['['] then
    if 1 ≤ s.length - 1 then some (XpubRef.parseBody ((s.drop 1).dropLast))
    else none
  else some (XpubRef.parseBody s)

/-! ### PsbtVersion (src/psbt/src/lib.rs) -/

/-- `PsbtVersion`: V0 per BIP174, V2 per BIP370. -/
inductive PsbtVersion
  | V0
  | V2
  deriving DecidableEq

/-- The `#[repr(u32)]` discriminants: `V0 = 0x0`, `V2 = 0x2`. -/
def PsbtVersion.toU32 : PsbtVersion → Nat
  | PsbtVersion.V0 => 0x0
  | PsbtVersion.V2 => 0x2

/-- `impl Default for PsbtVersion`. -/
def PsbtVersion.default : PsbtVersion := PsbtVersion.V2

/-! ### Helper lemmas -/

/-- Reading back a lowercase hex digit recovers the value it names. -/
theorem hexDigitToNat_natToHexDigit : ∀ n < 16, hexDigitToNat (natToHexDigit n) = some n := by
  decide

/-- Hex decoding undoes hex encoding of a byte string. -/
theorem hexToBytes_bytesToHex (bs : List Nat) (h : ∀ b ∈ bs, b < 256) :
    hexToBytes (bytesToHex bs) = some bs := by
  induction bs with
  | nil => rfl
  | cons b t ih =>
    have hb : b < 256 := h b (List.mem_cons_self b t)
    have ht := ih (fun x hx => h x (List.mem_cons_of_mem b hx))
    have h1 := hexDigitToNat_natToHexDigit (b / 16) (by omega)
    have h2 := hexDigitToNat_natToHexDigit (b % 16) (by omega)
    have hshape : bytesToHex (b :: t) =
        natToHexDigit (b / 16) :: natToHexDigit (b % 16) :: bytesToHex t := by
      simp [bytesToHex, byteToHexChars]
    rw [hshape, hexToBytes, h1, h2, ht]
    show some ((16 * (b / 16) + b % 16) :: t) = some (b :: t)
    have hdm : 16 * (b / 16) + b % 16 = b := by omega
    rw [hdm]

/-- Hex encoding doubles the length. -/
theorem length_bytesToHex (bs : List Nat) : (bytesToHex bs).length = 2 * bs.length := by
  induction bs with
  | nil => rfl
  | cons b t ih => simp [bytesToHex, byteToHexChars] at ih ⊢; omega

/-- Fixed-size hex parsing undoes hex encoding of a sized byte string. -/
theorem bytesFromHex_bytesToHex (n : Nat) (v : Bytes n) :
    bytesFromHex n (bytesToHex v.val) = some v := by
  obtain ⟨l, hl, hb⟩ := v
  rw [bytesFromHex, if_pos (by rw [length_bytesToHex, hl]), hexToBytes_bytesToHex l hb]
  exact dif_pos ⟨hl, hb⟩

/-- Fixed-size hex parsing rejects a string of the wrong length. -/
theorem bytesFromHex_length_ne (n : Nat) (s : List Char) (h : s.length ≠ 2 * n) :
    bytesFromHex n s = none := by
  rw [bytesFromHex, if_neg h]

/-- On a string framed as `[` &hellip; last character, from_str strips the first and
last characters and runs the parser cascade; the last character is never
compared with the closing bracket. -/
theorem from_str_strip_bracket (inner : List Char) (c : Char) :
    XpubRef.from_str ('[' :: (inner ++ [c])) = some (XpubRef.parseBody inner) := by
  rw [XpubRef.from_str]
  rw [if_neg (by simp), if_neg (by simp [List.take_succ_cons]), if_pos (by simp),
    if_pos (by simp)]
  simp

/-- On a string framed as `=[` &hellip; last character, from_str strips the first two
and the last characters and runs the parser cascade. -/
theorem from_str_strip_eq_bracket (inner : List Char) (c : Char) :
    XpubRef.from_str ('=' :: '[' :: (inner ++ [c])) = some (XpubRef.parseBody inner) := by
  rw [XpubRef.from_str]
  rw [if_neg (by simp), if_pos (by simp [List.take_succ_cons]), if_pos (by simp)]
  simp

/-- The cascade stops at a successful fingerprint parse. -/
theorem parseBody_of_fingerprint (s : List Char) (fp : Fingerprint)
    (h : Fingerprint.from_str s = some fp) :
    XpubRef.parseBody s = Except.ok (XpubRef.Fingerprint fp) := by
  simp [XpubRef.parseBody, h]

/-- The cascade stops at a successful identifier parse once the fingerprint
parse has failed. -/
theorem parseBody_of_identifier (s : List Char) (xid : XKeyIdentifier)
    (h1 : Fingerprint.from_str s = none) (h2 : XKeyIdentifier.from_str s = some xid) :
    XpubRef.parseBody s = Except.ok (XpubRef.XKeyIdentifier xid) := by
  simp [XpubRef.parseBody, h1, h2]

/-- Once fingerprint and identifier parses fail, the result — value or error —
is exactly the extended-key parse: the InvalidDerivationPathFormat error of
line 103 is discarded by the following or_else. -/
theorem parseBody_of_xpub_stage (s : List Char)
    (h1 : Fingerprint.from_str s = none) (h2 : XKeyIdentifier.from_str s = none) :
    XpubRef.parseBody s = Except.map XpubRef.Xpub (Xpub.from_str s) := by
  simp [XpubRef.parseBody, h1, h2]

/-- Parsing the textual form of an extended key recovers the key. -/
theorem xpub_from_str_toText (x : Xpub) : Xpub.from_str (Xpub.toText x) = Except.ok x := by
  rw [Xpub.toText, Xpub.from_str, if_pos (by simp [xpubTag]),
    show (xpubTag ++ bytesToHex x.val).drop 4 = bytesToHex x.val by simp [xpubTag],
    bytesFromHex_bytesToHex]

/-- The textual form of an extended key has 160 characters. -/
theorem toText_length (x : Xpub) : (Xpub.toText x).length = 160 := by
  rw [Xpub.toText]
  simp [xpubTag, length_bytesToHex, x.property.1]

/-- Fingerprint::try_from succeeds on the first 4 bytes of a 20-byte
identifier. -/
theorem try_from_take4 (xid : XKeyIdentifier) :
    Fingerprint.try_from (xid.val.take 4) =
      some ⟨xid.val.take 4, by
        obtain ⟨h1, h2⟩ := xid.property
        exact ⟨by rw [List.length_take, h1]; omega,
          fun b hb => h2 b (List.take_subset 4 _ hb)⟩⟩ := by
  rw [Fingerprint.try_from, dif_pos]

/-- The hex text of a fingerprint parses back to it. -/
theorem fingerprint_from_str_display (fp : Fingerprint) :
    Fingerprint.from_str (bytesToHex fp.val) = some fp :=
  bytesFromHex_bytesToHex 4 fp

/-- The cascade on identifier hex: fingerprint fails on the 40-character
string, the identifier parse wins. -/
theorem parseBody_identifier_hex (xid : XKeyIdentifier) :
    XpubRef.parseBody (bytesToHex xid.val) = Except.ok (XpubRef.XKeyIdentifier xid) := by
  refine parseBody_of_identifier _ xid ?_ (bytesFromHex_bytesToHex 20 xid)
  refine bytesFromHex_length_ne 4 _ ?_
  rw [length_bytesToHex, xid.property.1]
  omega

/-- The cascade on extended-key text: both hex parses fail on the
160-character string, the extended-key parse wins. -/
theorem parseBody_xpub_text (x : Xpub) :
    XpubRef.parseBody (Xpub.toText x) = Except.ok (XpubRef.Xpub x) := by
  rw [parseBody_of_xpub_stage _
      (bytesFromHex_length_ne 4 _ (by rw [toText_length]; omega))
      (bytesFromHex_length_ne 20 _ (by rw [toText_length]; omega)),
    xpub_from_str_toText]
  rfl

/-! ### The claims -/

/-- C1: for every XpubRef value, parsing its canonical (non-alternate)
display form yields the value back, in each of the four variants. -/
theorem xpubref_parse_display_round_trip (r : XpubRef) :
    XpubRef.from_str (XpubRef.display r) = some (Except.ok r) := by
  cases r with
  | Unknown => rfl
  | Fingerprint fp =>
    rw [XpubRef.display, from_str_strip_bracket,
      parseBody_of_fingerprint _ fp (fingerprint_from_str_display fp)]
  | XKeyIdentifier xid =>
    rw [XpubRef.display, from_str_strip_bracket, parseBody_identifier_hex]
  | Xpub x =>
    rw [XpubRef.display, from_str_strip_bracket, parseBody_xpub_text]

/-- C2 (amended): a string framed by either bracket form has the frame
stripped and goes through the fingerprint, identifier, extended-key cascade
in that order, the first success winning; when all three fail the parse
fails with the error of the extended-key parser — the InvalidFormat
(InvalidDerivationPathFormat) error is discarded, not returned. -/
theorem xpubref_parse_cascade_order :
    (∀ inner : List Char,
      XpubRef.from_str ('[' :: (inner ++ [']'])) = some (XpubRef.parseBody inner)) ∧
    (∀ inner : List Char,
      XpubRef.from_str ('=' :: '[' :: (inner ++ [']'])) = some (XpubRef.parseBody inner)) ∧
    (∀ s fp, Fingerprint.from_str s = some fp →
      XpubRef.parseBody s = Except.ok (XpubRef.Fingerprint fp)) ∧
    (∀ s xid, Fingerprint.from_str s = none → XKeyIdentifier.from_str s = some xid →
      XpubRef.parseBody s = Except.ok (XpubRef.XKeyIdentifier xid)) ∧
    (∀ s, Fingerprint.from_str s = none → XKeyIdentifier.from_str s = none →
      XpubRef.parseBody s = Except.map XpubRef.Xpub (Xpub.from_str s)) :=
  ⟨fun inner => from_str_strip_bracket inner ']',
    fun inner => from_str_strip_eq_bracket inner ']',
    parseBody_of_fingerprint, parseBody_of_identifier, parseBody_of_xpub_stage⟩

set_option maxRecDepth 400000 in
/-- C2 counterexample: on the framed input [zz] all three parsers fail, yet
the returned error is the extended-key parser's base58 error, not the
InvalidFormat (InvalidDerivationPathFormat) error the claim states. -/
theorem xpubref_invalid_format_counterexample :
    XpubRef.from_str ['[', 'z', 'z', ']'] = some (Except.error Bip32Error.base58) ∧
    XpubRef.from_str ['[', 'z', 'z', ']'] ≠
      some (Except.error Bip32Error.invalidDerivationPathFormat) ∧
    Fingerprint.from_str ['z', 'z'] = none ∧
    XKeyIdentifier.from_str ['z', 'z'] = none ∧
    Xpub.from_str ['z', 'z'] = Except.error Bip32Error.base58 := by
  decide

/-- C3: is_some is false exactly on Unknown and true on the other three
variants. -/
theorem xpubref_is_some_iff_not_unknown (r : XpubRef) :
    (XpubRef.is_some r = false ↔ r = XpubRef.Unknown) ∧
    (∀ fp, XpubRef.is_some (XpubRef.Fingerprint fp) = true) ∧
    (∀ xid, XpubRef.is_some (XpubRef.XKeyIdentifier xid) = true) ∧
    (∀ x, XpubRef.is_some (XpubRef.Xpub x) = true) := by
  refine ⟨?_, fun fp => ?_, fun xid => ?_, fun x => ?_⟩ <;> simp [XpubRef.is_some]

/-- C4: fingerprint is defined exactly off Unknown, and on the Identifier
variant it is the identifier's first 4 bytes. -/
theorem xpubref_fingerprint_presence_and_first_bytes :
    (∀ r : XpubRef, (XpubRef.fingerprint r).isSome = true ↔ r ≠ XpubRef.Unknown) ∧
    (∀ xid : XKeyIdentifier,
      Option.map Subtype.val (XpubRef.fingerprint (XpubRef.XKeyIdentifier xid)) =
        some (xid.val.take 4)) := by
  constructor
  · intro r
    cases r with
    | Unknown => simp [XpubRef.fingerprint]
    | Fingerprint fp => simp [XpubRef.fingerprint]
    | XKeyIdentifier xid => simp [XpubRef.fingerprint, try_from_take4]
    | Xpub x => simp [XpubRef.fingerprint]
  · intro xid
    rw [XpubRef.fingerprint, try_from_take4]
    simp

/-- C5: identifier is defined exactly on the Identifier and FullKey variants
and is none on Unknown and Fingerprint. -/
theorem xpubref_identifier_presence (r : XpubRef) :
    ((XpubRef.identifier r).isSome = true ↔
      (∃ xid, r = XpubRef.XKeyIdentifier xid) ∨ (∃ x, r = XpubRef.Xpub x)) ∧
    XpubRef.identifier XpubRef.Unknown = none ∧
    (∀ fp, XpubRef.identifier (XpubRef.Fingerprint fp) = none) := by
  refine ⟨?_, rfl, fun _ => rfl⟩
  cases r <;> simp [XpubRef.identifier]

/-- C6: accessor availability degrades monotonically — a defined xpubkey
implies a defined identifier, a defined identifier implies a defined
fingerprint, and no accessor is defined on Unknown. -/
theorem xpubref_accessor_monotonicity (r : XpubRef) :
    ((XpubRef.xpubkey r).isSome ≤ (XpubRef.identifier r).isSome) ∧
    ((XpubRef.identifier r).isSome ≤ (XpubRef.fingerprint r).isSome) ∧
    XpubRef.fingerprint XpubRef.Unknown = none ∧
    XpubRef.identifier XpubRef.Unknown = none ∧
    XpubRef.xpubkey XpubRef.Unknown = none := by
  refine ⟨?_, ?_, rfl, rfl, rfl⟩ <;>
    cases r <;>
      simp [XpubRef.xpubkey, XpubRef.identifier, XpubRef.fingerprint, try_from_take4]

/-- C7: Unknown is the default value, the empty string parses to it, and it
displays as the empty string. -/
theorem xpubref_unknown_default_and_empty_string :
    XpubRef.default = XpubRef.Unknown ∧
    XpubRef.from_str [] = some (Except.ok XpubRef.Unknown) ∧
    XpubRef.display XpubRef.Unknown = [] :=
  ⟨rfl, rfl, rfl⟩

/-- C8: the PSBT version type has exactly the two values V0 (numeric 0) and
V2 (numeric 2), and its default is V2. -/
theorem psbt_version_two_values_default_v2 :
    (∀ v : PsbtVersion, v = PsbtVersion.V0 ∨ v = PsbtVersion.V2) ∧
    PsbtVersion.toU32 PsbtVersion.V0 = 0 ∧
    PsbtVersion.toU32 PsbtVersion.V2 = 2 ∧
    PsbtVersion.default = PsbtVersion.V2 := by
  refine ⟨fun v => ?_, rfl, rfl, rfl⟩
  cases v
  · exact Or.inl rfl
  · exact Or.inr rfl

/-- C9: from_str panics (models as none) on the 1-character string with only
an opening bracket and on the 2-character string with only the alternate
opening frame; and on any longer bracket-opened string the final character
is stripped unconditionally, whatever it is — the closing bracket is never
checked. -/
theorem xpubref_from_str_panic_and_unchecked_bracket :
    XpubRef.from_str ['['] = none ∧
    XpubRef.from_str ['=', '['] = none ∧
    (∀ inner (c : Char),
      XpubRef.from_str ('[' :: (inner ++ [c])) = some (XpubRef.parseBody inner)) ∧
    (∀ inner (c : Char),
      XpubRef.from_str ('=' :: '[' :: (inner ++ [c])) = some (XpubRef.parseBody inner)) :=
  ⟨by decide, by decide, from_str_strip_bracket, from_str_strip_eq_bracket⟩

set_option maxRecDepth 400000 in
/-- C10: a non-empty string that opens with neither bracket frame is fed
unframed to the same cascade, so bare 8-hex-digit fingerprint text parses
successfully. -/
theorem xpubref_from_str_unframed_cascade :
    (∀ s : List Char, s ≠ [] → s.take 2 ≠ ['=', '['] → s.take 1 ≠ ['['] →
      XpubRef.from_str s = some (XpubRef.parseBody s)) ∧
    XpubRef.from_str ['0', 'a', '1', 'b', '2', 'c', '3', 'd'] =
      some (Except.ok (XpubRef.Fingerprint ⟨[10, 27, 44, 61], by decide⟩)) := by
  constructor
  · intro s h1 h2 h3
    rw [XpubRef.from_str, if_neg h1, if_neg h2, if_neg h3]
  · decide
